import Mathlib

/-!
Shallow embedding of the signaling / session-negotiation core of
src/scripts/gstreamer-webrtc-sender.py (class WebRTCStreamer and main),
together with theorems settling the frozen claims about it.

The embedding models:
  * the JSON-like values carried by signaling messages (JValue, Msg);
  * WebRTCStreamer._handle_signaling_message (handleSignalingMessage);
  * the webrtcbin callbacks _on_negotiation_needed, _on_offer_created,
    _on_ice_candidate (senderStep on engine events);
  * WebRTCStreamer._send_signaling_message (sendSignalingMessage);
  * WebRTCStreamer.stop (stop);
  * WebRTCStreamer.run / connect_signaling (runStreamer);
  * the resolution parsing in main (pySplit, pyInt, parseResolution).
-/

namespace DGX

/-- JSON-like values as they occur in this program's signaling messages:
the Python dictionaries hold None, strings and integers. -/
inductive JValue where
  | null
  | str (s : String)
  | int (n : Int)
deriving DecidableEq, Repr

/-- A parsed signaling message: the Python dict produced by json.loads,
modelled as an association list of fields. -/
abbrev Msg := List (String × JValue)

/-- Python message.get(key): the stored value, or None when the key is
absent (None and JSON null are both JValue.null). -/
def msgGet (m : Msg) (k : String) : JValue :=
  (m.lookup k).getD JValue.null

/-- Python message.get(key, default). -/
def msgGetD (m : Msg) (k : String) (d : JValue) : JValue :=
  (m.lookup k).getD d

/-- Python truthiness of the values occurring here: None, the empty string
and 0 are falsy, everything else truthy. -/
def truthy : JValue → Bool
  | .null => false
  | .str s => !(s == "")
  | .int n => !(n == 0)

/-- Log levels used by the script (logger.debug / info / error). -/
inductive LogLevel where
  | debug
  | info
  | error
deriving DecidableEq, Repr

/-- One log line: level and (static part of the) message text. -/
structure LogEvent where
  level : LogLevel
  text : String
deriving DecidableEq, Repr

/-- Commands the sender emits to the media engine, i.e. the
webrtcbin.emit / element.emit calls in the script. -/
inductive EngineCmd where
  | createOffer
  | setLocalDescription (sdp : JValue)
  | setRemoteDescription (sdp : JValue)
  | addIceCandidate (sdpMLineIndex : JValue) (candidate : JValue)
deriving DecidableEq, Repr

/-- Everything one handler invocation produces besides the new session id:
emissions to the media engine, messages handed to _send_signaling_message,
and log output. -/
structure Output where
  engineCmds : List EngineCmd
  outMsgs : List Msg
  logs : List LogEvent
deriving DecidableEq, Repr

/-- The empty output. -/
def Output.empty : Output := ⟨[], [], []⟩

/-- Concatenation of outputs of successive handler invocations. -/
def Output.append (a b : Output) : Output :=
  ⟨a.engineCmds ++ b.engineCmds, a.outMsgs ++ b.outMsgs, a.logs ++ b.logs⟩

/-- Model of WebRTCStreamer.__init__ line 73: self.session_id starts as
None. -/
def initSessionId : JValue := JValue.null

/-- Model of WebRTCStreamer._handle_signaling_message (lines 261-292):
dispatch on the type field. The only streamer state it can mutate is
self.session_id, threaded through explicitly; everything it emits to
webrtcbin or the logger is collected in the Output. -/
def handleSignalingMessage (sessionId : JValue) (m : Msg) : JValue × Output :=
  let msgType := msgGet m "type"
  if msgType = JValue.str "answer" then
    let sdp := msgGet m "sdp"
    if truthy sdp then
      (sessionId,
        ⟨[EngineCmd.setRemoteDescription sdp], [], [⟨.info, "Received SDP answer"⟩]⟩)
    else (sessionId, Output.empty)
  else if msgType = JValue.str "ice-candidate" then
    let candidate := msgGet m "candidate"
    let mline := msgGetD m "sdpMLineIndex" (JValue.int 0)
    if truthy candidate then
      (sessionId,
        ⟨[EngineCmd.addIceCandidate mline candidate], [],
          [⟨.debug, "Adding remote ICE candidate"⟩]⟩)
    else (sessionId, Output.empty)
  else if msgType = JValue.str "session-created" then
    (msgGet m "session_id", ⟨[], [], [⟨.info, "Session created"⟩]⟩)
  else if msgType = JValue.str "error" then
    (sessionId, ⟨[], [], [⟨.error, "Signaling error"⟩]⟩)
  else
    (sessionId, Output.empty)

/-- A raw websocket frame as seen by the receive loop in connect_signaling
(lines 316-321): either it parsed as JSON to a message, or json.loads
raised JSONDecodeError on it. -/
inductive Raw where
  | valid (m : Msg)
  | invalid (text : String)
deriving DecidableEq, Repr

/-- The callbacks the media engine (webrtcbin / GStreamer) delivers to the
sender: on-negotiation-needed, the create-offer promise reply handled by
_on_offer_created (carrying the offer SDP text, or nothing on failure), and
on-ice-candidate. -/
inductive EngineEvent where
  | negotiationNeeded
  | offerCreated (offer : Option String)
  | iceCandidateDiscovered (mlineIndex : Int) (candidate : String)
deriving DecidableEq, Repr

/-- One event arriving at the sender: a media-engine callback or an inbound
websocket frame. -/
inductive SenderEvent where
  | engine (e : EngineEvent)
  | inbound (r : Raw)
deriving DecidableEq, Repr

/-- The offer message built in _on_offer_created (lines 196-202); the
session_id field always carries the current self.session_id value. -/
def offerMessage (sessionId : JValue) (sdpText : String) : Msg :=
  [("type", JValue.str "offer"), ("sdp", JValue.str sdpText),
   ("session_id", sessionId)]

/-- The outbound candidate message built in _on_ice_candidate
(lines 207-214). -/
def iceCandidateMessage (sessionId : JValue) (mlineIndex : Int)
    (candidate : String) : Msg :=
  [("type", JValue.str "ice-candidate"), ("candidate", JValue.str candidate),
   ("sdpMLineIndex", JValue.int mlineIndex), ("session_id", sessionId)]

/-- One step of the sender: how the script reacts to a single event.
Engine callbacks follow _on_negotiation_needed (lines 172-176, which
unconditionally emits create-offer), _on_offer_created (lines 178-202) and
_on_ice_candidate (lines 204-214); inbound frames follow the receive loop
(lines 316-321) and _handle_signaling_message. -/
def senderStep (sessionId : JValue) : SenderEvent → JValue × Output
  | .engine .negotiationNeeded =>
      (sessionId,
        ⟨[EngineCmd.createOffer], [],
          [⟨.info, "Negotiation needed, creating offer..."⟩]⟩)
  | .engine (.offerCreated none) =>
      (sessionId, ⟨[], [], [⟨.error, "Failed to create offer"⟩]⟩)
  | .engine (.offerCreated (some sdp)) =>
      (sessionId,
        ⟨[EngineCmd.setLocalDescription (JValue.str sdp)],
          [offerMessage sessionId sdp],
          [⟨.info, "Sending SDP offer to signaling server"⟩]⟩)
  | .engine (.iceCandidateDiscovered mline cand) =>
      (sessionId,
        ⟨[], [iceCandidateMessage sessionId mline cand],
          [⟨.debug, "ICE candidate"⟩]⟩)
  | .inbound (.invalid _) =>
      (sessionId, ⟨[], [], [⟨.error, "Invalid JSON message"⟩]⟩)
  | .inbound (.valid m) => handleSignalingMessage sessionId m

/-- Run the sender over a sequence of events, threading the session id and
concatenating the outputs in order. -/
def senderRun (sessionId : JValue) : List SenderEvent → JValue × Output
  | [] => (sessionId, Output.empty)
  | e :: es =>
    let r1 := senderStep sessionId e
    let r2 := senderRun r1.1 es
    (r2.1, Output.append r1.2 r2.2)

example :
    (senderRun initSessionId
      [SenderEvent.inbound (Raw.valid
        [("type", JValue.str "session-created"),
         ("session_id", JValue.str "abc123")])]).1 = JValue.str "abc123" := by
  decide

/-! Observation helpers: projections of what a run emitted, used to state
the claims about candidate order, answers, offers and the session id. -/

/-- The add-ice-candidate emissions in a command list, in order. -/
def iceApplications (cmds : List EngineCmd) : List (JValue × JValue) :=
  cmds.filterMap fun c =>
    match c with
    | .addIceCandidate mline cand => some (mline, cand)
    | _ => none

/-- The set-remote-description emissions in a command list, in order. -/
def remoteDescApplications (cmds : List EngineCmd) : List JValue :=
  cmds.filterMap fun c =>
    match c with
    | .setRemoteDescription sdp => some sdp
    | _ => none

/-- How many create-offer requests a command list contains. -/
def createOfferRequests (cmds : List EngineCmd) : Nat :=
  cmds.count EngineCmd.createOffer

/-- The remote candidate a single event makes the script apply: an inbound
ice-candidate message with a truthy candidate field, paired with the
sdpMLineIndex field (defaulted to 0 as in line 282). -/
def eventIce : SenderEvent → Option (JValue × JValue)
  | .inbound (.valid m) =>
      if msgGet m "type" = JValue.str "ice-candidate" then
        if truthy (msgGet m "candidate") then
          some (msgGetD m "sdpMLineIndex" (JValue.int 0), msgGet m "candidate")
        else none
      else none
  | _ => none

/-- The remote description a single event makes the script apply: an
inbound answer message with a truthy sdp field. -/
def eventAnswer : SenderEvent → Option JValue
  | .inbound (.valid m) =>
      if msgGet m "type" = JValue.str "answer" then
        if truthy (msgGet m "sdp") then some (msgGet m "sdp") else none
      else none
  | _ => none

/-- The session id a single event writes: the session_id field of an
inbound session-created message. -/
def eventSessionCreated : SenderEvent → Option JValue
  | .inbound (.valid m) =>
      if msgGet m "type" = JValue.str "session-created" then
        some (msgGet m "session_id")
      else none
  | _ => none

/-- The number of negotiation-needed callbacks in an event sequence. -/
def countNegotiationNeeded (es : List SenderEvent) : Nat :=
  es.count (SenderEvent.engine EngineEvent.negotiationNeeded)

/-! Per-step and per-run lemmas relating the observations to the events. -/

lemma Output.append_engineCmds (a b : Output) :
    (Output.append a b).engineCmds = a.engineCmds ++ b.engineCmds := rfl

lemma Output.append_outMsgs (a b : Output) :
    (Output.append a b).outMsgs = a.outMsgs ++ b.outMsgs := rfl

lemma Output.append_logs (a b : Output) :
    (Output.append a b).logs = a.logs ++ b.logs := rfl

lemma Output.empty_append (b : Output) : Output.append Output.empty b = b := by
  cases b; simp [Output.append, Output.empty]

lemma senderStep_sessionId (sid : JValue) (e : SenderEvent) :
    (senderStep sid e).1 = (eventSessionCreated e).getD sid := by
  cases e with
  | engine ev => cases ev with
    | negotiationNeeded => rfl
    | offerCreated o => cases o <;> rfl
    | iceCandidateDiscovered mline cand => rfl
  | inbound r => cases r with
    | invalid t => rfl
    | valid m =>
      simp only [senderStep, handleSignalingMessage, eventSessionCreated]
      split_ifs <;> simp_all

lemma senderStep_ice (sid : JValue) (e : SenderEvent) :
    iceApplications (senderStep sid e).2.engineCmds = (eventIce e).toList := by
  cases e with
  | engine ev => cases ev with
    | negotiationNeeded => rfl
    | offerCreated o => cases o <;> rfl
    | iceCandidateDiscovered mline cand => rfl
  | inbound r => cases r with
    | invalid t => rfl
    | valid m =>
      simp only [senderStep, handleSignalingMessage, eventIce]
      split_ifs <;> simp_all [iceApplications, Output.empty]

lemma senderStep_answer (sid : JValue) (e : SenderEvent) :
    remoteDescApplications (senderStep sid e).2.engineCmds =
      (eventAnswer e).toList := by
  cases e with
  | engine ev => cases ev with
    | negotiationNeeded => rfl
    | offerCreated o => cases o <;> rfl
    | iceCandidateDiscovered mline cand => rfl
  | inbound r => cases r with
    | invalid t => rfl
    | valid m =>
      simp only [senderStep, handleSignalingMessage, eventAnswer]
      split_ifs <;> simp_all [remoteDescApplications, Output.empty]

lemma senderStep_createOffer (sid : JValue) (e : SenderEvent) :
    createOfferRequests (senderStep sid e).2.engineCmds =
      if e = SenderEvent.engine EngineEvent.negotiationNeeded then 1 else 0 := by
  cases e with
  | engine ev => cases ev with
    | negotiationNeeded => rfl
    | offerCreated o => cases o <;> rfl
    | iceCandidateDiscovered mline cand => rfl
  | inbound r => cases r with
    | invalid t => rfl
    | valid m =>
      simp only [senderStep, handleSignalingMessage]
      split_ifs <;> simp_all [createOfferRequests, Output.empty]

lemma senderRun_cons (sid : JValue) (e : SenderEvent) (es : List SenderEvent) :
    senderRun sid (e :: es) =
      ((senderRun (senderStep sid e).1 es).1,
        Output.append (senderStep sid e).2 (senderRun (senderStep sid e).1 es).2) := by
  rfl

/-- Throughout a run, the add-ice-candidate emissions are exactly the
candidates of the inbound ice-candidate messages, in arrival order. -/
lemma senderRun_ice (sid : JValue) (es : List SenderEvent) :
    iceApplications (senderRun sid es).2.engineCmds = es.filterMap eventIce := by
  induction es generalizing sid with
  | nil => rfl
  | cons e es ih =>
    rw [senderRun_cons]
    simp only [Output.append_engineCmds, iceApplications, List.filterMap_append]
    rw [← iceApplications, ← iceApplications, senderStep_ice, ih,
      List.filterMap_cons]
    cases eventIce e <;> simp

/-- Throughout a run, the set-remote-description emissions are exactly the
sdp fields of the inbound answer messages, in arrival order. -/
lemma senderRun_answer (sid : JValue) (es : List SenderEvent) :
    remoteDescApplications (senderRun sid es).2.engineCmds =
      es.filterMap eventAnswer := by
  induction es generalizing sid with
  | nil => rfl
  | cons e es ih =>
    rw [senderRun_cons]
    simp only [Output.append_engineCmds, remoteDescApplications,
      List.filterMap_append]
    rw [← remoteDescApplications, ← remoteDescApplications, senderStep_answer,
      ih, List.filterMap_cons]
    cases eventAnswer e <;> simp

/-- Throughout a run, one create-offer request is emitted per
negotiation-needed callback, unconditionally. -/
lemma senderRun_createOffer (sid : JValue) (es : List SenderEvent) :
    createOfferRequests (senderRun sid es).2.engineCmds =
      countNegotiationNeeded es := by
  induction es generalizing sid with
  | nil => rfl
  | cons e es ih =>
    rw [senderRun_cons]
    simp only [Output.append_engineCmds, createOfferRequests, List.count_append]
    rw [← createOfferRequests, ← createOfferRequests, senderStep_createOffer, ih]
    by_cases h : e = SenderEvent.engine EngineEvent.negotiationNeeded <;>
      simp [countNegotiationNeeded, List.count_cons, h, Nat.add_comm]

/-- The session id after a run is the session_id field of the last inbound
session-created message, or the starting id if there was none: each
session-created message overwrites it. -/
lemma senderRun_sessionId (sid : JValue) (es : List SenderEvent) :
    (senderRun sid es).1 = ((es.filterMap eventSessionCreated).getLast?).getD sid := by
  induction es generalizing sid with
  | nil => rfl
  | cons e es ih =>
    rw [senderRun_cons]
    simp only [ih, List.filterMap_cons]
    rw [senderStep_sessionId]
    cases h : eventSessionCreated e with
    | none => simp
    | some v =>
      simp only [Option.getD_some]
      cases h2 : es.filterMap eventSessionCreated with
      | nil => simp
      | cons w ws =>
        have hne : (w :: ws) ≠ ([] : List JValue) := by simp
        simp [List.getLast?_eq_getLast _ hne]

/-! Claim C1: buffering of early remote ICE candidates. -/

/-- An ice-candidate message followed by the answer. -/
def iceBeforeAnswerTrace : List SenderEvent :=
  [SenderEvent.inbound (Raw.valid
     [("type", JValue.str "ice-candidate"), ("candidate", JValue.str "cand1"),
      ("sdpMLineIndex", JValue.int 0)]),
   SenderEvent.inbound (Raw.valid
     [("type", JValue.str "answer"), ("sdp", JValue.str "sdpA")])]

/-- C1 counterexample: a remote ICE candidate arriving before the answer is
emitted to the media engine immediately, as the very first command, strictly
before the set-remote-description emission — it is not buffered until after
the remote description is applied, contrary to the claim. -/
theorem ice_candidate_applied_before_remote_description :
    (senderRun initSessionId iceBeforeAnswerTrace).2.engineCmds =
      [EngineCmd.addIceCandidate (JValue.int 0) (JValue.str "cand1"),
       EngineCmd.setRemoteDescription (JValue.str "sdpA")] := by
  decide

/-- C1 (amended): for every sequence of events, remote ice-candidate
messages (with a truthy candidate field) are forwarded to the media engine
immediately on arrival and in exactly arrival order, regardless of whether
the remote description has been applied; there is no buffering, and a
candidate message whose candidate field is absent or falsy is discarded. -/
theorem ice_candidates_applied_immediately_in_arrival_order
    (sid : JValue) (es : List SenderEvent) :
    iceApplications (senderRun sid es).2.engineCmds = es.filterMap eventIce :=
  senderRun_ice sid es

/-! Claim C2: single offer in flight. -/

/-- Two negotiation-needed callbacks, each followed by its offer-created
reply, with no answer in between: the first offer is still unacknowledged
when the second negotiation-needed callback arrives. -/
def twoNegotiationsTrace : List SenderEvent :=
  [SenderEvent.engine EngineEvent.negotiationNeeded,
   SenderEvent.engine (EngineEvent.offerCreated (some "sdpA")),
   SenderEvent.engine EngineEvent.negotiationNeeded,
   SenderEvent.engine (EngineEvent.offerCreated (some "sdpB"))]

/-- C2 counterexample: a negotiation-needed callback arriving while the
first offer is still in flight (sent, no answer received) triggers a second
create-offer request, and two offer messages end up sent with no answer
applied — two offers simultaneously in flight, contrary to the claim. -/
theorem second_offer_created_while_offer_in_flight :
    createOfferRequests
        (senderRun initSessionId twoNegotiationsTrace).2.engineCmds = 2 ∧
    remoteDescApplications
        (senderRun initSessionId twoNegotiationsTrace).2.engineCmds = [] ∧
    (senderRun initSessionId twoNegotiationsTrace).2.outMsgs =
      [offerMessage JValue.null "sdpA", offerMessage JValue.null "sdpB"] := by
  decide

/-- C2 (amended): every negotiation-needed callback unconditionally
triggers an offer creation request; the sender keeps no pending-offer
state, so for any interleaving of events the number of create-offer
requests equals the number of negotiation-needed callbacks, and several
offers can be in flight at once. -/
theorem every_negotiation_needed_creates_offer
    (sid : JValue) (es : List SenderEvent) :
    createOfferRequests (senderRun sid es).2.engineCmds =
      countNegotiationNeeded es :=
  senderRun_createOffer sid es

/-! Claim C3: answers outside OfferSent are rejected. -/

/-- Two answer messages arriving with no offer ever created. -/
def twoAnswersTrace : List SenderEvent :=
  [SenderEvent.inbound (Raw.valid
     [("type", JValue.str "answer"), ("sdp", JValue.str "sdp1")]),
   SenderEvent.inbound (Raw.valid
     [("type", JValue.str "answer"), ("sdp", JValue.str "sdp2")])]

/-- C3 counterexample: no offer was ever created (the session is certainly
not in OfferSent — the code tracks no negotiation state at all), yet the
first answer is applied as the remote description, and the second answer is
then applied over the first instead of being rejected, contrary to the
claim. -/
theorem answer_applied_without_offer_and_second_answer_applied :
    (senderRun initSessionId twoAnswersTrace).2.engineCmds =
      [EngineCmd.setRemoteDescription (JValue.str "sdp1"),
       EngineCmd.setRemoteDescription (JValue.str "sdp2")] := by
  decide

/-- C3 (amended): every answer message with a truthy sdp field is applied
as the remote description immediately, regardless of negotiation state or
of how many answers came before; the applications happen in exactly arrival
order (so a later answer overwrites an earlier one), and an answer without
a truthy sdp field is silently ignored. -/
theorem answers_always_applied_in_order (sid : JValue) (es : List SenderEvent) :
    remoteDescApplications (senderRun sid es).2.engineCmds =
      es.filterMap eventAnswer :=
  senderRun_answer sid es

/-! Claim C4: session id set exactly once. -/

/-- Two session-created messages with different ids. -/
def twoSessionCreatedTrace : List SenderEvent :=
  [SenderEvent.inbound (Raw.valid
     [("type", JValue.str "session-created"),
      ("session_id", JValue.str "abc123")]),
   SenderEvent.inbound (Raw.valid
     [("type", JValue.str "session-created"),
      ("session_id", JValue.str "def456")])]

/-- C4 counterexample: after a second session-created message carrying a
different id, the stored session id is the second id, not the first — the
later message overwrites the id instead of being ignored, contrary to the
claim. -/
theorem session_id_overwritten_by_second_session_created :
    (senderRun initSessionId twoSessionCreatedTrace).1 = JValue.str "def456" ∧
    (senderRun initSessionId twoSessionCreatedTrace).1 ≠ JValue.str "abc123" := by
  decide

/-- C4 (amended): every session-created message handled overwrites the
stored session id with its session_id field (null when the field is
absent); after any event sequence the stored id is that of the last
session-created message handled, or the starting value if none arrived. -/
theorem session_id_last_write_wins (sid : JValue) (es : List SenderEvent) :
    (senderRun sid es).1 =
      ((es.filterMap eventSessionCreated).getLast?).getD sid :=
  senderRun_sessionId sid es

/-! Claim C7: malformed inbound messages. -/

/-- A parsed message whose type field matches none of the handled types
(answer, ice-candidate, session-created, error). -/
def unknownType (m : Msg) : Prop :=
  msgGet m "type" ≠ JValue.str "answer" ∧
  msgGet m "type" ≠ JValue.str "ice-candidate" ∧
  msgGet m "type" ≠ JValue.str "session-created" ∧
  msgGet m "type" ≠ JValue.str "error"

instance (m : Msg) : Decidable (unknownType m) := by
  unfold unknownType
  infer_instance

/-- C7 counterexample: a well-formed message with the unrecognized type
ping is discarded with no log output whatsoever (and no state change) —
the code does not report a MalformedMessage error for unrecognized types,
contrary to the claim. -/
theorem unknown_type_discarded_without_report :
    senderRun initSessionId
      [SenderEvent.inbound (Raw.valid [("type", JValue.str "ping")])] =
      (JValue.null, Output.empty) := by
  decide

/-- C7 (amended): a raw frame that fails JSON parsing is logged as an error
and discarded, leaving the session id, engine emissions and outbound
messages of the rest of the run unchanged (processing continues); a parsed
message with an unrecognized type is silently discarded — no log, no state
change — and processing likewise continues. -/
theorem malformed_json_logged_and_unknown_type_silently_discarded :
    (∀ (sid : JValue) (t : String) (es : List SenderEvent),
      senderRun sid (SenderEvent.inbound (Raw.invalid t) :: es) =
        ((senderRun sid es).1,
          Output.append ⟨[], [], [⟨LogLevel.error, "Invalid JSON message"⟩]⟩
            (senderRun sid es).2)) ∧
    (∀ (sid : JValue) (m : Msg) (es : List SenderEvent), unknownType m →
      senderRun sid (SenderEvent.inbound (Raw.valid m) :: es) =
        senderRun sid es) := by
  constructor
  · intro sid t es
    rfl
  · intro sid m es h
    have hstep : senderStep sid (SenderEvent.inbound (Raw.valid m)) =
        (sid, Output.empty) := by
      obtain ⟨h1, h2, h3, h4⟩ := h
      simp only [senderStep, handleSignalingMessage]
      split_ifs <;> simp_all
    rw [senderRun_cons, hstep]
    simp [Output.empty_append]

/-- C7 witness: the amended theorem applied to the concrete unrecognized
message type ping with an empty remaining event sequence. -/
theorem malformed_routing_witness :
    senderRun JValue.null
      [SenderEvent.inbound (Raw.valid [("type", JValue.str "ping")])] =
      senderRun JValue.null [] := by
  exact malformed_json_logged_and_unknown_type_silently_discarded.2
    JValue.null [("type", JValue.str "ping")] [] (by decide)

/-! Claim C6: sending while disconnected. -/

/-- Model of WebRTCStreamer._send_signaling_message (lines 253-259). The
first component is what the awaiting caller observes (the coroutine never
raises: any exception from websocket.send is caught and logged); the second
is the list of payloads actually handed to websocket.send; the third is the
log output. The websocket argument models self.websocket and wsSendOk
models whether the underlying websocket.send call raises. -/
def sendSignalingMessage (websocket : Option Unit) (wsSendOk : Bool)
    (m : Msg) : Except String Unit × List Msg × List LogEvent :=
  match websocket with
  | none => (Except.ok (), [], [])
  | some _ =>
    if wsSendOk then (Except.ok (), [m], [])
    else (Except.ok (), [],
      [⟨LogLevel.error, "Failed to send signaling message"⟩])

/-- C6 counterexample: with self.websocket unset, sending an offer message
completes normally for the caller — no NotConnected (or any) error is
surfaced — while nothing is transmitted and nothing is even logged: the
message is silently dropped, contrary to the claim. -/
theorem send_without_connection_silently_drops :
    sendSignalingMessage none true (offerMessage JValue.null "sdpA") =
      (Except.ok (), [], []) := by
  rfl

/-- C6 (amended): the send coroutine never surfaces an error to the caller
for any channel state: when the channel is not open the message is silently
dropped with no log, and when the channel is open a failing transmission is
caught and logged, again without surfacing an error. -/
theorem send_never_surfaces_error_and_drops_when_closed :
    (∀ (websocket : Option Unit) (wsSendOk : Bool) (m : Msg),
      (sendSignalingMessage websocket wsSendOk m).1 = Except.ok ()) ∧
    (∀ (wsSendOk : Bool) (m : Msg),
      sendSignalingMessage none wsSendOk m = (Except.ok (), [], [])) := by
  constructor
  · intro websocket wsSendOk m
    cases websocket with
    | none => rfl
    | some u => cases wsSendOk <;> rfl
  · intro wsSendOk m
    rfl

/-! Claim C8: idempotence of stop. -/

/-- The teardown actions stop can perform (lines 341-356). -/
inductive TeardownAction where
  | pipelineToNull
  | websocketClose
  | loopQuit
deriving DecidableEq, Repr

/-- The mutable handle fields of WebRTCStreamer that stop reads and
writes: self.pipeline, self.websocket, self.loop. (The script assigns
self.loop only in __init__, to None.) -/
structure StreamerHandles where
  pipeline : Option Unit
  websocket : Option Unit
  loop : Option Unit
deriving DecidableEq, Repr

/-- Model of WebRTCStreamer.stop (lines 341-356): tears down whichever
handles are set, clearing pipeline and websocket but — exactly as in the
source — not clearing loop. -/
def stop (s : StreamerHandles) : StreamerHandles × List TeardownAction :=
  let pipelineActs : List TeardownAction :=
    match s.pipeline with
    | some _ => [TeardownAction.pipelineToNull]
    | none => []
  let websocketActs : List TeardownAction :=
    match s.websocket with
    | some _ => [TeardownAction.websocketClose]
    | none => []
  let loopActs : List TeardownAction :=
    match s.loop with
    | some _ => [TeardownAction.loopQuit]
    | none => []
  (⟨none, none, s.loop⟩, pipelineActs ++ websocketActs ++ loopActs)

/-- C8 counterexample: starting from handles that are all set, the first
stop performs the full teardown sequence, but a second stop performs a
further teardown action — it re-issues loop-quit, because stop never
clears the loop handle — so the claim that a second call performs no
further teardown actions, producing exactly one teardown sequence, fails. -/
theorem second_stop_reissues_loop_quit :
    (stop ⟨some (), some (), some ()⟩).2 =
      [TeardownAction.pipelineToNull, TeardownAction.websocketClose,
       TeardownAction.loopQuit] ∧
    (stop (stop ⟨some (), some (), some ()⟩).1).2 = [TeardownAction.loopQuit] ∧
    (stop (stop ⟨some (), some (), some ()⟩).1).2 ≠ [] := by
  decide

/-- C8 (amended): stop raises no error and clears the pipeline and
websocket handles, so a second call performs no pipeline or websocket
teardown and leaves the state fixed; but the loop handle is never cleared,
so a second call re-issues exactly the loop-quit action whenever a loop is
set — and performs nothing only when the loop handle is none (which is the
only reachable case in this script, since self.loop is never assigned
after __init__). -/
theorem stop_idempotent_except_loop_quit (s : StreamerHandles) :
    (stop (stop s).1).1 = (stop s).1 ∧
    ((stop s).1).pipeline = none ∧
    ((stop s).1).websocket = none ∧
    ((stop s).1).loop = s.loop ∧
    (stop (stop s).1).2 =
      (match s.loop with
        | some _ => [TeardownAction.loopQuit]
        | none => []) := by
  obtain ⟨p, w, l⟩ := s
  cases p <;> cases w <;> cases l <;> exact ⟨rfl, rfl, rfl, rfl, rfl⟩

/-! Claim C5: reconnection with exponential backoff. -/

/-- How one call to websockets.connect and the subsequent receive loop can
end, as seen by connect_signaling (lines 294-325): the connect call itself
raises; the connection delivers some frames and then closes cleanly (the
async-for loop simply ends); or it delivers some frames and then the
receive loop raises (abnormal close / keepalive timeout). -/
inductive ConnectOutcome where
  | connectFail
  | cleanClose (raws : List Raw)
  | abnormalClose (raws : List Raw)
deriving DecidableEq, Repr

/-- What one execution of WebRTCStreamer.run produces, transport-wise. -/
structure RunResult where
  connectAttempts : Nat
  backoffWaits : List Nat
  registersSent : Nat
  sessionId : JValue
  output : Output
  stopCalled : Bool
deriving DecidableEq, Repr

/-- Handling of the inbound frames of one connection (lines 316-321). -/
def runInbound (sid : JValue) (raws : List Raw) : JValue × Output :=
  senderRun sid (raws.map SenderEvent.inbound)

/-- Model of WebRTCStreamer.run with connect_signaling (lines 294-325 and
358-368): exactly one connection attempt is ever made; on success one
register message is sent and inbound frames are handled until the
connection ends; any exception (failed connect or abnormal close) is
logged in connect_signaling, re-raised, and makes run call stop. There is
no retry loop, so no backoff wait ever occurs and register is never
re-sent. -/
def runStreamer (sid : JValue) (o : ConnectOutcome) : RunResult :=
  match o with
  | .connectFail =>
    ⟨1, [], 0, sid,
      ⟨[], [], [⟨LogLevel.error, "Signaling connection error"⟩]⟩, true⟩
  | .cleanClose raws =>
    let r := runInbound sid raws
    ⟨1, [], 1, r.1, r.2, false⟩
  | .abnormalClose raws =>
    let r := runInbound sid raws
    ⟨1, [], 1, r.1,
      Output.append r.2
        ⟨[], [], [⟨LogLevel.error, "Signaling connection error"⟩]⟩, true⟩

/-- C5 counterexample: after a connection loss (abnormal close), the run
makes no further connection attempt and waits out no backoff delay — it
logs the error and stops, contrary to the claimed retry-with-backoff
behavior (and likewise a failed initial connect is never retried). -/
theorem no_reconnect_after_connection_loss :
    runStreamer initSessionId (ConnectOutcome.abnormalClose []) =
      ⟨1, [], 1, JValue.null,
        ⟨[], [], [⟨LogLevel.error, "Signaling connection error"⟩]⟩, true⟩ ∧
    runStreamer initSessionId ConnectOutcome.connectFail =
      ⟨1, [], 0, JValue.null,
        ⟨[], [], [⟨LogLevel.error, "Signaling connection error"⟩]⟩, true⟩ := by
  decide

/-- C5 (amended): for every connection outcome the program makes exactly
one connection attempt and performs no backoff wait; the register message
is sent at most once (once per successful connection, and there is never a
reconnect to re-send it on); and the streamer is stopped unless the
connection ended with a clean remote close. -/
theorem single_connection_attempt_no_backoff (sid : JValue)
    (o : ConnectOutcome) :
    (runStreamer sid o).connectAttempts = 1 ∧
    (runStreamer sid o).backoffWaits = [] ∧
    (runStreamer sid o).registersSent ≤ 1 ∧
    (runStreamer sid o).stopCalled =
      (match o with
        | ConnectOutcome.cleanClose _ => false
        | _ => true) := by
  cases o <;> exact ⟨rfl, rfl, by simp [runStreamer], rfl⟩

/-! Claim C10: messages produced before session-created carry a null
session id and are still sent. -/

/-- C10: before any session-created message has been handled the stored
session id is still its initial value None; an offer created then is
passed to the send path unconditionally — never withheld for lack of a
session id — as a message that carries a session_id field whose value is
null, and the same holds for a discovered local ICE candidate; and when
the channel is open such a message is transmitted as-is. -/
theorem early_offers_and_candidates_sent_with_null_session_id :
    (∀ (es : List SenderEvent), es.filterMap eventSessionCreated = [] →
      (senderRun initSessionId es).1 = JValue.null) ∧
    (∀ (sdp : String),
      (senderStep JValue.null
          (SenderEvent.engine (EngineEvent.offerCreated (some sdp)))).2.outMsgs =
        [offerMessage JValue.null sdp] ∧
      (offerMessage JValue.null sdp).lookup "session_id" = some JValue.null ∧
      (sendSignalingMessage (some ()) true (offerMessage JValue.null sdp)).2.1 =
        [offerMessage JValue.null sdp]) ∧
    (∀ (mline : Int) (cand : String),
      (senderStep JValue.null
          (SenderEvent.engine
            (EngineEvent.iceCandidateDiscovered mline cand))).2.outMsgs =
        [iceCandidateMessage JValue.null mline cand] ∧
      (iceCandidateMessage JValue.null mline cand).lookup "session_id" =
        some JValue.null) := by
  refine ⟨?_, ?_, ?_⟩
  · intro es h
    rw [senderRun_sessionId, h]
    rfl
  · intro sdp
    exact ⟨rfl, rfl, rfl⟩
  · intro mline cand
    exact ⟨rfl, rfl⟩

/-- C10 witness: a run consisting of one negotiation-needed callback
contains no session-created message, so the theorem applies to it and the
session id is still null. -/
theorem early_null_session_id_witness :
    (senderRun initSessionId
      [SenderEvent.engine EngineEvent.negotiationNeeded]).1 = JValue.null := by
  exact early_offers_and_candidates_sent_with_null_session_id.1
    [SenderEvent.engine EngineEvent.negotiationNeeded] (by decide)

/-! Claim C9: the resolution string check in main (lines 418-423), i.e.
Python width, height = map(int, args.resolution.split("x")) with
ValueError caught and answered by sys.exit(1). We model str.split for a
one-character separator, and int() on the strings that can reach it
(ASCII whitespace stripping, one optional sign, decimal digits with
single underscores strictly between digits). -/

/-- Python str.split(sep) for a one-character separator: splits at every
occurrence, keeping empty parts. -/
def pySplit (sep : Char) : List Char → List (List Char)
  | [] => [[]]
  | c :: rest =>
    if c = sep then [] :: pySplit sep rest
    else
      match pySplit sep rest with
      | [] => [[c]]
      | g :: gs => (c :: g) :: gs

/-- The ASCII whitespace Python's int() strips around a numeral. -/
def isPyWs (c : Char) : Bool :=
  c == ' ' || c == '\t' || c == '\n' || c == '\r'

/-- Strip leading and trailing whitespace. -/
def trimWs (cs : List Char) : List Char :=
  ((cs.dropWhile isPyWs).reverse.dropWhile isPyWs).reverse

/-- After the leading digit, Python's int() accepts digits in which a
single underscore may stand strictly between two digits: an underscore must
be followed by a digit and may not end the numeral. -/
def digitTail : List Char → Bool
  | [] => true
  | [c] => if c = '_' then false else c.isDigit
  | c :: d :: rest =>
    if c = '_' then d.isDigit && digitTail (d :: rest)
    else c.isDigit && digitTail (d :: rest)

/-- Numeric value of a digit character. -/
def digitVal (c : Char) : Nat := c.toNat - '0'.toNat

/-- Value of a digit string, underscores skipped. -/
def digitsVal (cs : List Char) : Nat :=
  cs.foldl (fun n c => if c = '_' then n else 10 * n + digitVal c) 0

/-- The unsigned core of Python int(): a leading digit followed by a valid
digit tail; none when int() would raise ValueError. -/
def pyIntMag (cs : List Char) : Option Nat :=
  match cs with
  | [] => none
  | c :: rest =>
    if c.isDigit && digitTail rest then some (digitsVal (c :: rest))
    else none

/-- A signed numeral: one optional sign, then the unsigned numeral. -/
def pyIntSigned : List Char → Option Int
  | [] => none
  | c :: rest =>
    if c = '+' then (pyIntMag rest).map (fun n => (n : Int))
    else if c = '-' then (pyIntMag rest).map (fun n => -(n : Int))
    else (pyIntMag (c :: rest)).map (fun n => (n : Int))

/-- Python int(s): strip surrounding whitespace, then a signed numeral;
none exactly when int() raises ValueError. -/
def pyInt (cs : List Char) : Option Int :=
  pyIntSigned (trimWs cs)

/-- Model of main lines 419-423: the resolution string is split on "x" and
the unpacking width, height = map(int, parts) succeeds exactly when there
are two parts and both parse as integers; any ValueError is caught. -/
def parseResolution (cs : List Char) : Option (Int × Int) :=
  match pySplit 'x' cs with
  | [a, b] =>
    match pyInt a, pyInt b with
    | some w, some h => some (w, h)
    | _, _ => none
  | _ => none

/-- Model of the process-level outcome of the resolution check: the parsed
pair when parsing succeeds, otherwise exit status 1 (sys.exit(1) in the
except ValueError branch). -/
def resolutionCheck (cs : List Char) : Except Nat (Int × Int) :=
  match parseResolution cs with
  | some wh => Except.ok wh
  | none => Except.error 1

/-- Decimal rendering of a natural number, used to exhibit inputs. -/
def natDigs (n : Nat) : List Char :=
  if h : n < 10 then [Char.ofNat ('0'.toNat + n)]
  else natDigs (n / 10) ++ [Char.ofNat ('0'.toNat + n % 10)]
termination_by n
decreasing_by
  exact Nat.div_lt_self (by omega) (by omega)

/-- Decimal rendering of an integer (minus sign for negatives). -/
def renderInt (w : Int) : List Char :=
  if w < 0 then '-' :: natDigs w.natAbs else natDigs w.natAbs

lemma digitChar_isDigit (k : Nat) (hk : k < 10) :
    (Char.ofNat ('0'.toNat + k)).isDigit = true := by
  interval_cases k <;> decide

lemma ne_of_isDigit (c : Char) (hc : c.isDigit = true) :
    ¬ c = '_' ∧ ¬ c = 'x' ∧ ¬ c = '+' ∧ ¬ c = '-' ∧ isPyWs c = false := by
  refine ⟨?_, ?_, ?_, ?_, ?_⟩
  · rintro rfl; exact absurd hc (by decide)
  · rintro rfl; exact absurd hc (by decide)
  · rintro rfl; exact absurd hc (by decide)
  · rintro rfl; exact absurd hc (by decide)
  · by_cases h1 : c = ' '
    · subst h1; exact absurd hc (by decide)
    by_cases h2 : c = '\t'
    · subst h2; exact absurd hc (by decide)
    by_cases h3 : c = '\n'
    · subst h3; exact absurd hc (by decide)
    by_cases h4 : c = '\r'
    · subst h4; exact absurd hc (by decide)
    simp [isPyWs, h1, h2, h3, h4]

lemma dropWhile_eq_self_of_not (p : Char → Bool) (cs : List Char)
    (h : ∀ c ∈ cs, p c = false) : cs.dropWhile p = cs := by
  cases cs with
  | nil => rfl
  | cons c rest => simp [List.dropWhile_cons, h c (by simp)]

lemma trimWs_eq_self (cs : List Char) (h : ∀ c ∈ cs, isPyWs c = false) :
    trimWs cs = cs := by
  unfold trimWs
  rw [dropWhile_eq_self_of_not _ _ h,
    dropWhile_eq_self_of_not _ _
      (fun c hc => h c (List.mem_reverse.mp hc)),
    List.reverse_reverse]

lemma digitTail_all_digits (cs : List Char) (h : ∀ c ∈ cs, c.isDigit = true) :
    digitTail cs = true := by
  induction cs with
  | nil => rfl
  | cons c rest ih =>
    have hc : c.isDigit = true := h c (by simp)
    have hne : ¬ c = '_' := (ne_of_isDigit c hc).1
    cases rest with
    | nil => simp [digitTail, hne, hc]
    | cons d rest2 =>
      have ih2 := ih (fun x hx => h x (by simp [hx]))
      simp [digitTail, hne, hc, ih2]

lemma digitsVal_append (cs : List Char) (c : Char) (hne : ¬ c = '_') :
    digitsVal (cs ++ [c]) = 10 * digitsVal cs + digitVal c := by
  unfold digitsVal
  rw [List.foldl_append]
  simp [hne]

lemma natDigs_ne_nil (n : Nat) : natDigs n ≠ [] := by
  intro hcon
  rw [natDigs] at hcon
  by_cases h : n < 10
  · rw [dif_pos h] at hcon
    exact List.cons_ne_nil _ _ hcon
  · rw [dif_neg h] at hcon
    have h2 := congrArg List.length hcon
    simp at h2

lemma natDigs_digits (n : Nat) : ∀ c ∈ natDigs n, c.isDigit = true := by
  induction n using Nat.strong_induction_on with
  | _ n ih =>
    intro c hc
    rw [natDigs] at hc
    by_cases h : n < 10
    · rw [dif_pos h] at hc
      simp only [List.mem_singleton] at hc
      subst hc
      exact digitChar_isDigit n h
    · rw [dif_neg h] at hc
      rcases List.mem_append.mp hc with hmem | hmem
      · exact ih (n / 10) (Nat.div_lt_self (by omega) (by omega)) c hmem
      · simp only [List.mem_singleton] at hmem
        subst hmem
        exact digitChar_isDigit (n % 10) (Nat.mod_lt _ (by omega))

lemma digitsVal_natDigs (n : Nat) : digitsVal (natDigs n) = n := by
  induction n using Nat.strong_induction_on with
  | _ n ih =>
    by_cases h : n < 10
    · rw [natDigs, dif_pos h]
      interval_cases n <;> decide
    · rw [natDigs, dif_neg h]
      have hm : n % 10 < 10 := Nat.mod_lt _ (by omega)
      have hd : (Char.ofNat ('0'.toNat + n % 10)).isDigit = true :=
        digitChar_isDigit (n % 10) hm
      rw [digitsVal_append _ _ (ne_of_isDigit _ hd).1,
        ih (n / 10) (Nat.div_lt_self (by omega) (by omega))]
      have hv : digitVal (Char.ofNat ('0'.toNat + n % 10)) = n % 10 := by
        have h10 : n % 10 < 10 := hm
        set k := n % 10 with hk
        interval_cases k <;> decide
      omega

lemma pyIntMag_natDigs (n : Nat) : pyIntMag (natDigs n) = some n := by
  cases hh : natDigs n with
  | nil => exact absurd hh (natDigs_ne_nil n)
  | cons c rest =>
    have hmem : ∀ x ∈ c :: rest, x.isDigit = true := by
      rw [← hh]
      exact natDigs_digits n
    have hc : c.isDigit = true := hmem c (by simp)
    have ht : digitTail rest = true :=
      digitTail_all_digits rest (fun x hx => hmem x (by simp [hx]))
    have hv : digitsVal (c :: rest) = n := by
      rw [← hh]
      exact digitsVal_natDigs n
    simp [pyIntMag, hc, ht, hv]

lemma pyInt_natDigs (n : Nat) : pyInt (natDigs n) = some (n : Int) := by
  have htrim : trimWs (natDigs n) = natDigs n :=
    trimWs_eq_self _ (fun c hc => (ne_of_isDigit c (natDigs_digits n c hc)).2.2.2.2)
  obtain ⟨c, rest, hh⟩ : ∃ c rest, natDigs n = c :: rest := by
    cases hhh : natDigs n with
    | nil => exact absurd hhh (natDigs_ne_nil n)
    | cons c rest => exact ⟨c, rest, rfl⟩
  have hc : c.isDigit = true := by
    have := natDigs_digits n c
    rw [hh] at this
    exact this (by simp)
  have hfacts := ne_of_isDigit c hc
  unfold pyInt
  rw [htrim, hh]
  simp only [pyIntSigned]
  rw [if_neg hfacts.2.2.1, if_neg hfacts.2.2.2.1, ← hh, pyIntMag_natDigs]
  rfl

lemma pyInt_neg_natDigs (n : Nat) :
    pyInt ('-' :: natDigs n) = some (-(n : Int)) := by
  have htrim : trimWs ('-' :: natDigs n) = '-' :: natDigs n := by
    apply trimWs_eq_self
    intro c hc
    rcases List.mem_cons.mp hc with rfl | hc
    · decide
    · exact (ne_of_isDigit c (natDigs_digits n c hc)).2.2.2.2
  unfold pyInt
  rw [htrim]
  simp only [pyIntSigned]
  rw [if_pos trivial, pyIntMag_natDigs]
  rfl

lemma pyInt_renderInt (w : Int) : pyInt (renderInt w) = some w := by
  unfold renderInt
  by_cases hw : w < 0
  · rw [if_pos hw, pyInt_neg_natDigs]
    congr 1
    omega
  · rw [if_neg hw, pyInt_natDigs]
    congr 1
    omega

lemma renderInt_no_x (w : Int) : ∀ c ∈ renderInt w, ¬ c = 'x' := by
  intro c hc
  unfold renderInt at hc
  by_cases hw : w < 0
  · rw [if_pos hw] at hc
    rcases List.mem_cons.mp hc with rfl | hc
    · decide
    · exact (ne_of_isDigit c (natDigs_digits _ c hc)).2.1
  · rw [if_neg hw] at hc
    exact (ne_of_isDigit c (natDigs_digits _ c hc)).2.1

lemma pySplit_no_sep (sep : Char) (cs : List Char)
    (h : ∀ c ∈ cs, ¬ c = sep) : pySplit sep cs = [cs] := by
  induction cs with
  | nil => rfl
  | cons c rest ih =>
    have hc : ¬ c = sep := h c (by simp)
    simp only [pySplit]
    rw [if_neg hc, ih (fun x hx => h x (by simp [hx]))]

lemma pySplit_append (sep : Char) (as bs : List Char)
    (ha : ∀ c ∈ as, ¬ c = sep) :
    pySplit sep (as ++ sep :: bs) = as :: pySplit sep bs := by
  induction as with
  | nil => simp [pySplit]
  | cons a as ih =>
    have hane : ¬ a = sep := ha a (by simp)
    have ih2 := ih (fun x hx => ha x (by simp [hx]))
    simp only [List.cons_append, pySplit, if_neg hane, List.append_eq]
    simp only [List.append_eq] at ih2
    rw [ih2]

/-- C9 counterexample: the resolution string -1x1080 passes the check and
the process proceeds with width -1, even though -1 is not a positive
integer — the code only requires that both parts parse as integers, so the
process does not exit with a usage error on non-positive dimensions,
contrary to the claim. -/
theorem negative_resolution_accepted :
    resolutionCheck (String.toList "-1x1080") = Except.ok (-1, 1080) ∧
    ¬ (0 < (-1 : Int)) := by
  exact ⟨rfl, by decide⟩

/-- C9 (amended): the process starts only if the resolution string splits
on the character x into exactly two parts that each parse as an integer
under Python int() — sign included, so zero and negative values are
accepted as well; any pair of integers rendered in decimal passes the
check, and whenever parsing fails the process exits with a usage error and
exit status 1. -/
theorem resolution_check_accepts_any_two_integers :
    (∀ (w h : Int),
      resolutionCheck (renderInt w ++ 'x' :: renderInt h) =
        Except.ok (w, h)) ∧
    (∀ (cs : List Char), parseResolution cs = none →
      resolutionCheck cs = Except.error 1) := by
  constructor
  · intro w h
    have h1 := pySplit_append 'x' (renderInt w) (renderInt h)
      (renderInt_no_x w)
    have h2 := pySplit_no_sep 'x' (renderInt h) (renderInt_no_x h)
    simp [resolutionCheck, parseResolution, h1, h2, pyInt_renderInt]
  · intro cs h
    unfold resolutionCheck
    rw [h]

/-- C9 witness: the theorem applied to the concrete non-numeric resolution
string axb, which exits with status 1, and to the concrete integer pair
(640, 480). -/
theorem resolution_usage_error_witness :
    resolutionCheck (String.toList "axb") = Except.error 1 := by
  exact resolution_check_accepts_any_two_integers.2 (String.toList "axb")
    (by decide)

end DGX
